import Mathlib

/-!
# Verification of the better-wait-until liveness-extension coordinator

Shallow embedding of the keep-alive coordinator for Cloudflare Durable
Objects ("cells"): the monitor tick loop of betterAwait (src, websocket
module), the fetch-based variant of betterWaitUntil (src, fetch module),
the constructorUpdate instrumentation patch, acceptKeepAliveWebSocket,
and the agents broadcast patch (src/agents.ts).

Times are absolute milliseconds (JavaScript Date.now values) modelled as
Nat; the one subtraction the source performs on times is modelled on Int,
matching JavaScript number subtraction.  JavaScript string predicates
(String.prototype.startsWith / includes) are modelled structurally over
the character data of Lean strings so that they are kernel-computable.
-/

/-! ## Options and escalation thresholds (websocket module, betterAwait) -/

/-- The options object of betterAwait / betterWaitUntil: three optional
absolute times (ms).  Source: the options parameter
{ timeout?: Date, logWarningAfter?: Date, logErrorAfter?: Date }. -/
structure BetterAwaitOptions where
  timeout : Option Nat
  logWarningAfter : Option Nat
  logErrorAfter : Option Nat
deriving DecidableEq

/-- Source: const logWarningAt = (options.logWarningAfter?.getTime() ?? Date.now()) + 1000 * 60 * 15.
Note the 15-minute offset is added unconditionally, also when the caller
supplied logWarningAfter.  invokeNow is the Date.now() at invocation. -/
def logWarningAtOf (invokeNow : Nat) (o : BetterAwaitOptions) : Nat :=
  (o.logWarningAfter.getD invokeNow) + 1000 * 60 * 15

/-- Source: const logErrorAt = (options.logErrorAfter?.getTime() ?? Date.now()) + 1000 * 60 * 60. -/
def logErrorAtOf (invokeNow : Nat) (o : BetterAwaitOptions) : Nat :=
  (o.logErrorAfter.getD invokeNow) + 1000 * 60 * 60

/-! ## Monitor state and one interval tick -/

/-- The mutable per-operation escalation state of the interval callback:
let loggedWarning = false; let lastLoggedErrorAt = 0. -/
structure MonitorState where
  loggedWarning : Bool
  lastLoggedErrorAt : Nat
deriving DecidableEq

/-- Initial state: loggedWarning = false, lastLoggedErrorAt = 0. -/
def monitorState0 : MonitorState := { loggedWarning := false, lastLoggedErrorAt := 0 }

/-- Source: !loggedWarning && Date.now() > logWarningAt. -/
def warnFires (warnAt now : Nat) (s : MonitorState) : Bool :=
  !s.loggedWarning && decide (warnAt < now)

/-- Source: Date.now() > logErrorAt && Date.now() - lastLoggedErrorAt > 1000 * 60 * 10.
The subtraction is JavaScript number subtraction, modelled on Int. -/
def errFires (errAt now : Nat) (s : MonitorState) : Bool :=
  decide (errAt < now) && decide ((1000 * 60 * 10 : Int) < (now : Int) - (s.lastLoggedErrorAt : Int))

/-- Source: options.timeout && Date.now() > options.timeout.getTime(). -/
def timeoutElapsed (timeout : Option Nat) (now : Nat) : Bool :=
  match timeout with
  | some t => decide (t < now)
  | none => false

/-- State after the warning-logging step of a tick (loggedWarning = true
when the warning fires). -/
def mtState1 (warnAt now : Nat) (s : MonitorState) : MonitorState :=
  if warnFires warnAt now s then { s with loggedWarning := true } else s

/-- State after the error-logging step of a tick
(lastLoggedErrorAt = Date.now() when the error fires). -/
def mtState2 (warnAt errAt now : Nat) (s : MonitorState) : MonitorState :=
  if errFires errAt now (mtState1 warnAt now s) then
    { mtState1 warnAt now s with lastLoggedErrorAt := now }
  else mtState1 warnAt now s

/-- Whether a tick is terminal, and why. -/
inductive TerminalKind where
  | finished
  | timeout
deriving DecidableEq

/-- Observable outcome of one interval tick. -/
structure TickResult where
  state : MonitorState
  warnEmitted : Bool
  errEmitted : Bool
  terminal : Option TerminalKind
  pingSent : Bool
deriving DecidableEq

/-- One execution of the setInterval callback of betterAwait, in source
order: (1) if the closure flag is set, clear the interval and resolve;
(2) the warning check; (3) the 10-minute-throttled error check; (4) the
timeout check (clear interval, resolve, no ping); (5) otherwise send one
ping over the websocket.  closureFlag is the value of the finished flag
read at the start of the tick, now is Date.now() during the tick. -/
def monitorTick (warnAt errAt : Nat) (timeout : Option Nat) (closureFlag : Bool)
    (now : Nat) (s : MonitorState) : TickResult :=
  if closureFlag then
    { state := s, warnEmitted := false, errEmitted := false,
      terminal := some TerminalKind.finished, pingSent := false }
  else if timeoutElapsed timeout now then
    { state := mtState2 warnAt errAt now s, warnEmitted := warnFires warnAt now s,
      errEmitted := errFires errAt now (mtState1 warnAt now s),
      terminal := some TerminalKind.timeout, pingSent := false }
  else
    { state := mtState2 warnAt errAt now s, warnEmitted := warnFires warnAt now s,
      errEmitted := errFires errAt now (mtState1 warnAt now s),
      terminal := none, pingSent := true }

/-! ## The tick loop -/

/-- Settlement of the wrapped computation: none = never settles; some (t, true) =
fulfills at time t; some (t, false) = rejects at time t.  The closure flag
(set by promise.finally) is observed by a tick at time now iff the
settlement time is at most now. -/
def closureFlagAt (settle : Option (Nat × Bool)) (now : Nat) : Bool :=
  match settle with
  | none => false
  | some s => decide (s.1 ≤ now)

/-- Record of one tick of the loop: the iteration counter (count++ at tick
start, so the first tick has count 1), the Date.now() of the tick, and the
observable outcome of the tick. -/
structure TickRecord where
  count : Nat
  time : Nat
  warnEmitted : Bool
  errEmitted : Bool
  terminal : Option TerminalKind
  pingSent : Bool
deriving DecidableEq

/-- The tick loop: tick k fires at start + period * k (setInterval with the
given period); the loop stops after a terminal tick.  fuel bounds the number
of simulated ticks. -/
def runTicksFrom (period warnAt errAt : Nat) (timeout : Option Nat)
    (settle : Option (Nat × Bool)) (start : Nat) :
    Nat → Nat → MonitorState → List TickRecord
  | 0, _, _ => []
  | fuel + 1, k, s =>
    let now := start + period * k
    let r := monitorTick warnAt errAt timeout (closureFlagAt settle now) now s
    { count := k, time := now, warnEmitted := r.warnEmitted, errEmitted := r.errEmitted,
      terminal := r.terminal, pingSent := r.pingSent } ::
      (if r.terminal.isSome then [] else
        runTicksFrom period warnAt errAt timeout settle start fuel (k + 1) r.state)

/-- Source: setInterval(async () => { ... }, 10000) in betterAwait of the
websocket module. -/
def keepAliveTickPeriodMs : Nat := 10000

/-- Source: setInterval(async () => { ... }, 60000) in betterWaitUntil of
the fetch-based module (the variant that keeps the cell awake with a no-op
self fetch instead of a websocket ping). -/
def fetchKeepAlivePeriodMs : Nat := 60000

/-- The tick trace of betterAwait (websocket module): thresholds computed
once at invocation time start, ticks every 10 seconds from the initial
monitor state. -/
def betterAwaitTicks (start : Nat) (o : BetterAwaitOptions)
    (settle : Option (Nat × Bool)) (fuel : Nat) : List TickRecord :=
  runTicksFrom keepAliveTickPeriodMs (logWarningAtOf start o) (logErrorAtOf start o)
    o.timeout settle start fuel 1 monitorState0

/-- The tick trace of the fetch-based betterWaitUntil variant: identical
per-tick logic (same threshold computation, warning/error/timeout checks),
but with a 60-second interval and a no-op self fetch as the heartbeat. -/
def fetchBetterWaitUntilTicks (start : Nat) (o : BetterAwaitOptions)
    (settle : Option (Nat × Bool)) (fuel : Nat) : List TickRecord :=
  runTicksFrom fetchKeepAlivePeriodMs (logWarningAtOf start o) (logErrorAtOf start o)
    o.timeout settle start fuel 1 monitorState0

/-- Times at which the console.warn escalation fired. -/
def warnTimes (tr : List TickRecord) : List Nat :=
  (tr.filter (fun r => r.warnEmitted)).map (fun r => r.time)

/-- Times at which the console.error long-running escalation fired. -/
def errTimes (tr : List TickRecord) : List Nat :=
  (tr.filter (fun r => r.errEmitted)).map (fun r => r.time)

/-- Times at which a heartbeat ping was sent. -/
def pingTimes (tr : List TickRecord) : List Nat :=
  (tr.filter (fun r => r.pingSent)).map (fun r => r.time)

/-! ## The full event timeline of one betterAwait call -/

/-- Observable events of one tracked operation. -/
inductive AwaitEvent where
  | channelOpen
  | channelClose
  | warnLog
  | errLog
  | timeoutLog
  | resolveMonitor
  | ping (count : Nat)
deriving DecidableEq

/-- Events of one tick, in the order the callback emits them: on a
finished tick only the interval is cleared and the monitor future resolves
(the tick does not close the websocket); otherwise the warning log, then the
error log, then either the terminal timeout log or one ping. -/
def tickRecordEvents (r : TickRecord) : List (Nat × AwaitEvent) :=
  match r.terminal with
  | some TerminalKind.finished => [(r.time, AwaitEvent.resolveMonitor)]
  | some TerminalKind.timeout =>
      (if r.warnEmitted then [(r.time, AwaitEvent.warnLog)] else []) ++
      (if r.errEmitted then [(r.time, AwaitEvent.errLog)] else []) ++
      [(r.time, AwaitEvent.timeoutLog), (r.time, AwaitEvent.resolveMonitor)]
  | none =>
      (if r.warnEmitted then [(r.time, AwaitEvent.warnLog)] else []) ++
      (if r.errEmitted then [(r.time, AwaitEvent.errLog)] else []) ++
      [(r.time, AwaitEvent.ping r.count)]

/-- Insert a timed event before the first event of equal or later time. -/
def insertByTime (e : Nat × AwaitEvent) : List (Nat × AwaitEvent) → List (Nat × AwaitEvent)
  | [] => [e]
  | x :: xs => if e.1 ≤ x.1 then e :: x :: xs else x :: insertByTime e xs

/-- When the websocket is closed.  Source:
promise.finally(() => closureFlag = true).then(() => websocketPromise.then(r => r.webSocket.close())):
the close callback is a then-continuation after finally, so it runs only
when the wrapped promise fulfills (at the fulfillment time); on rejection
the chain rejects and no close is issued, and the finished
and timeout branches never close the socket either. -/
def channelCloseTime (settle : Option (Nat × Bool)) : Option Nat :=
  match settle with
  | some (t, true) => some t
  | _ => none

/-- The full observable timeline of one betterAwait call: the websocket
upgrade fetch is issued synchronously inside the Promise executor at
invocation time start (before any tick), then the close event (if any) is
interleaved with the tick events by time. -/
def betterAwaitTimeline (start : Nat) (o : BetterAwaitOptions)
    (settle : Option (Nat × Bool)) (fuel : Nat) : List (Nat × AwaitEvent) :=
  let tickEvs := (betterAwaitTicks start o settle fuel).flatMap tickRecordEvents
  let withClose :=
    match channelCloseTime settle with
    | some t => insertByTime (t, AwaitEvent.channelClose) tickEvs
    | none => tickEvs
  (start, AwaitEvent.channelOpen) :: withClose

/-- Predicate: the event is the channel-open event. -/
def eventIsOpen (ev : Nat × AwaitEvent) : Bool :=
  match ev.2 with
  | AwaitEvent.channelOpen => true
  | _ => false

/-- Predicate: the event is a heartbeat ping. -/
def eventIsPing (ev : Nat × AwaitEvent) : Bool :=
  match ev.2 with
  | AwaitEvent.ping _ => true
  | _ => false

/-! ## JavaScript string predicates, modelled over character data -/

/-- Structural prefix test on character lists (models
String.prototype.startsWith). -/
def listPrefixOf : List Char → List Char → Bool
  | [], _ => true
  | _ :: _, [] => false
  | a :: as, b :: bs => (a == b) && listPrefixOf as bs

/-- jsStartsWith s p : does s start with p (JavaScript s.startsWith(p)). -/
def jsStartsWith (s p : String) : Bool :=
  listPrefixOf p.data s.data

/-- Structural substring test on character lists. -/
def listContainsSub (needle : List Char) : List Char → Bool
  | [] => listPrefixOf needle []
  | h :: t => listPrefixOf needle (h :: t) || listContainsSub needle t

/-- jsIncludes s p : does s contain p as a substring (JavaScript
s.includes(p)). -/
def jsIncludes (s p : String) : Bool :=
  listContainsSub p.data s.data

/-! ## The fetch patch and the reserved heartbeat path -/

/-- Source: const WEBSOCKET_ENDPOINT = new URL("https://fake/better-wait-until/websocket");
const websocketPath = WEBSOCKET_ENDPOINT.pathname. -/
def websocketPath : String := "/better-wait-until/websocket"

/-- An incoming request, as far as acceptKeepAliveWebSocket inspects it:
the URL pathname and the value of the Upgrade header
(none when the header is absent). -/
structure HttpRequest where
  pathname : String
  upgrade : Option String
deriving DecidableEq

/-- Outcomes of the patched fetch: the 101 upgrade response produced by the
keep-alive handler, or whatever the prior fetch handler produced. -/
inductive FetchOutcome where
  | keepAliveUpgrade
  | userResponse (tag : Nat)
  | notFound
deriving DecidableEq

/-- Source: acceptKeepAliveWebSocket returns null (fall through to the old
fetch) unless the pathname starts with the reserved websocket path AND the
Upgrade header equals "websocket"; on a match it accepts the server side of
a WebSocketPair and returns the 101 response with the client side. -/
def acceptKeepAliveWebSocket (req : HttpRequest) : Option FetchOutcome :=
  if !jsStartsWith req.pathname websocketPath || req.upgrade != some "websocket" then
    none
  else
    some FetchOutcome.keepAliveUpgrade

/-- Source: the newFetch installed by constructorUpdate: first try the
keep-alive acceptor, otherwise delegate to the old fetch. -/
def newFetch (oldFetch : HttpRequest → FetchOutcome) (req : HttpRequest) : FetchOutcome :=
  match acceptKeepAliveWebSocket req with
  | some resp => resp
  | none => oldFetch req

/-! ## The webSocketMessage patch -/

/-- Observable result of handling one inbound websocket message: what was
sent back on the socket, and which messages reached the prior
(user) handler. -/
structure WsResult where
  sent : List String
  userReceived : List String
deriving DecidableEq

/-- Source: the newWebSocketMessage installed by constructorUpdate: on a
message starting with "better-wait-until-ping " reply "pong from server"
and return; otherwise delegate to the old handler. -/
def newWebSocketMessage (oldWS : String → WsResult) (message : String) : WsResult :=
  if jsStartsWith message "better-wait-until-ping " then
    { sent := ["pong from server"], userReceived := [] }
  else
    oldWS message

/-! ## The waitUntil patch -/

/-- Deferred computations (promises), deep-embedded so that the identity of
the value handed to the host primitive is observable: a caller-supplied
promise, or the intervalFinished future returned by betterAwait applied to
a promise. -/
inductive PromiseExpr where
  | var (n : Nat)
  | intervalFinishedOf (p : PromiseExpr)
deriving DecidableEq

/-- What the host and the liveness monitor have observed: the promises
registered with the underlying ctx.waitUntil, and the promises handed to
betterAwait for tracking. -/
structure WaitUntilLog where
  hostRegistered : List PromiseExpr
  monitorRegistered : List PromiseExpr
deriving DecidableEq

/-- Register a promise with the liveness monitor. -/
def registerWithMonitor (p : PromiseExpr) (l : WaitUntilLog) : WaitUntilLog :=
  { l with monitorRegistered := l.monitorRegistered ++ [p] }

/-- The observable effect of calling betterAwait(instance, p): p is
registered with the monitor and the call returns the intervalFinished
future (not p). -/
def betterAwaitCall (p : PromiseExpr) (l : WaitUntilLog) : PromiseExpr × WaitUntilLog :=
  (PromiseExpr.intervalFinishedOf p, registerWithMonitor p l)

/-- The unpatched host primitive: ctx.waitUntil registers its argument with
the host. -/
def hostWaitUntil (p : PromiseExpr) (l : WaitUntilLog) : WaitUntilLog :=
  { l with hostRegistered := l.hostRegistered ++ [p] }

/-- Source: const newWaitUntil = (promise) => oldWaitUntil?.call(ctx, betterAwait(instance, promise)). -/
def newWaitUntil (oldW : PromiseExpr → WaitUntilLog → WaitUntilLog)
    (p : PromiseExpr) (l : WaitUntilLog) : WaitUntilLog :=
  let r := betterAwaitCall p l
  oldW r.1 r.2

/-! ## constructorUpdate -/

/-- The three extension points of a cell instance that constructorUpdate
rewrites. -/
structure CellMethods where
  fetch : HttpRequest → FetchOutcome
  webSocketMessage : String → WsResult
  waitUntil : PromiseExpr → WaitUntilLog → WaitUntilLog

/-- Source: constructorUpdate(instance): capture the old fetch,
webSocketMessage and ctx.waitUntil, and install the three wrappers.  There
is no patch marker in the source: every application re-wraps the current
methods. -/
def constructorUpdateM (inst : CellMethods) : CellMethods :=
  { fetch := newFetch inst.fetch,
    webSocketMessage := newWebSocketMessage inst.webSocketMessage,
    waitUntil := newWaitUntil inst.waitUntil }

/-- An unpatched cell whose fetch answers every request itself and whose
message handler forwards every message to user logic. -/
def baseCell : CellMethods :=
  { fetch := fun _ => FetchOutcome.userResponse 0,
    webSocketMessage := fun m => { sent := [], userReceived := [m] },
    waitUntil := hostWaitUntil }

/-! ## The agents broadcast patch (src/agents.ts) -/

/-- A connection as agentsConstructorUpdate inspects it: its id and its URL
(connection.url may be undefined). -/
structure AgentConnection where
  id : String
  url : Option String
deriving DecidableEq

/-- Source: connection.url?.includes("better-wait-until/websocket") —
undefined url is falsy. -/
def keepAliveConn (c : AgentConnection) : Bool :=
  match c.url with
  | none => false
  | some u => jsIncludes u "better-wait-until/websocket"

/-- Source: the newBroadcast installed by agentsConstructorUpdate:
without = without ?? []; for every current connection whose URL contains
the reserved path, push its id onto without; then delegate to the old
broadcast with the augmented exclusion list. -/
def agentsNewBroadcast {β : Type} (conns : List AgentConnection)
    (oldBroadcast : String → List String → β)
    (msg : String) (without : Option (List String)) : β :=
  let w0 := without.getD []
  let w := conns.foldl (fun acc c => if keepAliveConn c then acc ++ [c.id] else acc) w0
  oldBroadcast msg w

/-! ## Characterization lemmas for one tick -/

lemma monitorTick_flagTrue (w e : Nat) (tmo : Option Nat) (now : Nat) (s : MonitorState) :
    monitorTick w e tmo true now s =
      { state := s, warnEmitted := false, errEmitted := false,
        terminal := some TerminalKind.finished, pingSent := false } := rfl

lemma monitorTick_false (w e : Nat) (tmo : Option Nat) (now : Nat) (s : MonitorState) :
    monitorTick w e tmo false now s =
      if timeoutElapsed tmo now then
        { state := mtState2 w e now s, warnEmitted := warnFires w now s,
          errEmitted := errFires e now (mtState1 w now s),
          terminal := some TerminalKind.timeout, pingSent := false }
      else
        { state := mtState2 w e now s, warnEmitted := warnFires w now s,
          errEmitted := errFires e now (mtState1 w now s),
          terminal := none, pingSent := true } := rfl

lemma monitorTick_false_warnEmitted (w e : Nat) (tmo : Option Nat) (now : Nat) (s : MonitorState) :
    (monitorTick w e tmo false now s).warnEmitted = warnFires w now s := by
  rw [monitorTick_false]; split <;> rfl

lemma monitorTick_false_errEmitted (w e : Nat) (tmo : Option Nat) (now : Nat) (s : MonitorState) :
    (monitorTick w e tmo false now s).errEmitted = errFires e now (mtState1 w now s) := by
  rw [monitorTick_false]; split <;> rfl

lemma monitorTick_false_state (w e : Nat) (tmo : Option Nat) (now : Nat) (s : MonitorState) :
    (monitorTick w e tmo false now s).state = mtState2 w e now s := by
  rw [monitorTick_false]; split <;> rfl

lemma monitorTick_false_terminal (w e : Nat) (tmo : Option Nat) (now : Nat) (s : MonitorState) :
    (monitorTick w e tmo false now s).terminal =
      (if timeoutElapsed tmo now then some TerminalKind.timeout else none) := by
  rw [monitorTick_false]; split <;> rename_i h <;> simp [h]

lemma monitorTick_false_pingSent (w e : Nat) (tmo : Option Nat) (now : Nat) (s : MonitorState) :
    (monitorTick w e tmo false now s).pingSent = !timeoutElapsed tmo now := by
  rw [monitorTick_false]; split <;> rename_i h <;> simp [h]

lemma mtState1_lastLoggedErrorAt (w now : Nat) (s : MonitorState) :
    (mtState1 w now s).lastLoggedErrorAt = s.lastLoggedErrorAt := by
  unfold mtState1; split <;> rfl

lemma mtState1_loggedWarning (w now : Nat) (s : MonitorState) :
    (mtState1 w now s).loggedWarning = (s.loggedWarning || warnFires w now s) := by
  unfold mtState1; cases h : warnFires w now s <;> simp [h]

lemma mtState2_loggedWarning (w e now : Nat) (s : MonitorState) :
    (mtState2 w e now s).loggedWarning = (mtState1 w now s).loggedWarning := by
  unfold mtState2; split <;> rfl

lemma mtState2_lastLoggedErrorAt (w e now : Nat) (s : MonitorState) :
    (mtState2 w e now s).lastLoggedErrorAt =
      (if errFires e now (mtState1 w now s) then now else s.lastLoggedErrorAt) := by
  unfold mtState2; split <;> rename_i h <;> simp [h, mtState1_lastLoggedErrorAt]

lemma warnFires_eq_true_iff (w now : Nat) (s : MonitorState) :
    warnFires w now s = true ↔ (s.loggedWarning = false ∧ w < now) := by
  simp [warnFires]

lemma errFires_eq_true_iff (e now : Nat) (s : MonitorState) :
    errFires e now s = true ↔
      (e < now ∧ (1000 * 60 * 10 : Int) < (now : Int) - (s.lastLoggedErrorAt : Int)) := by
  simp [errFires]

/-! ## C1 -/

/-- C1 (the code diverges from the claim): with logWarningAfter = 1 second
after invocation on a never-resolving operation, no warning is logged on
the first tick after that second (nor on any of the first 90 ticks); the
single warning first fires at 910 seconds, because the source adds the
15-minute default offset to the caller-supplied absolute time instead of
using it as the threshold. -/
theorem c1_warningThresholdShifted :
    logWarningAtOf 0 ⟨none, some 1000, none⟩ = 901000
    ∧ warnTimes (betterAwaitTicks 0 ⟨none, some 1000, none⟩ none 90) = []
    ∧ warnTimes (betterAwaitTicks 0 ⟨none, some 1000, none⟩ none 91) = [910000] := by
  refine ⟨rfl, ?_, ?_⟩ <;> decide

/-! ## C2 -/

/-- C2 counterexample: after the waitUntil patch, the promise the host
primitive observes for a call with a caller promise p is not p: the
host registers the intervalFinished future of betterAwait instead. -/
theorem c2_hostDoesNotGetOriginalPromise :
    (newWaitUntil hostWaitUntil (PromiseExpr.var 0) ⟨[], []⟩).hostRegistered
      ≠ [PromiseExpr.var 0] := by
  decide

/-- C2 amended: every invocation of the patched waitUntil registers the
original caller promise p with the liveness monitor, and forwards to the
underlying host primitive the intervalFinished future of the monitor (not p). -/
theorem c2_hostGetsMonitorFuture (p : PromiseExpr) (l : WaitUntilLog) :
    newWaitUntil hostWaitUntil p l =
      { hostRegistered := l.hostRegistered ++ [PromiseExpr.intervalFinishedOf p],
        monitorRegistered := l.monitorRegistered ++ [p] } := rfl

/-! ## C4 -/

/-- C4 counterexample: applying constructorUpdate a second time is not a
behavioral no-op — on the twice-patched cell a single waitUntil call
produces a different observable effect (the promise is registered with the
monitor twice) than on the once-patched cell. -/
theorem c4_secondPatchChangesWaitUntil :
    (constructorUpdateM (constructorUpdateM baseCell)).waitUntil (PromiseExpr.var 0) ⟨[], []⟩
      ≠ (constructorUpdateM baseCell).waitUntil (PromiseExpr.var 0) ⟨[], []⟩ := by
  decide

/-- C4 amended: constructorUpdate has no patch marker and re-applying it
re-wraps all three methods.  The fetch and webSocketMessage double-wraps
are behaviorally identical to the single wrap (in particular a ping still
gets exactly one reply), but the background-run primitive is double-wrapped:
each call registers the computation with the monitor twice (once as the
original promise, once as the already-wrapped future) and hands the host a
doubly wrapped future. -/
theorem c4_doublePatchBehavior (base : CellMethods) (p : PromiseExpr) (l : WaitUntilLog)
    (m : String) (r : HttpRequest) :
    (constructorUpdateM (constructorUpdateM base)).waitUntil p l
        = base.waitUntil (PromiseExpr.intervalFinishedOf (PromiseExpr.intervalFinishedOf p))
            (registerWithMonitor (PromiseExpr.intervalFinishedOf p) (registerWithMonitor p l))
    ∧ (constructorUpdateM (constructorUpdateM base)).webSocketMessage m
        = (constructorUpdateM base).webSocketMessage m
    ∧ (constructorUpdateM (constructorUpdateM base)).fetch r
        = (constructorUpdateM base).fetch r := by
  refine ⟨rfl, ?_, ?_⟩
  · cases h : jsStartsWith m "better-wait-until-ping " <;>
      simp [constructorUpdateM, newWebSocketMessage, h]
  · cases h : acceptKeepAliveWebSocket r <;>
      simp [constructorUpdateM, newFetch, h]

/-! ## C5 -/

/-- C5 counterexample: a tick on which the operation is unfinished and the
timeout has elapsed can also emit the warning escalation log, because the
source runs the warning and error checks before the timeout check; the
tick does not log exactly the terminal timeout error. -/
theorem c5_warningLoggedOnTimeoutTick :
    (monitorTick 900000 3600000 (some 905000) false 910000 monitorState0).terminal
        = some TerminalKind.timeout
    ∧ (monitorTick 900000 3600000 (some 905000) false 910000 monitorState0).warnEmitted
        = true := by
  decide

/-- C5 amended: on every tick where the operation is unfinished and the
configured timeout has elapsed, the tick is terminal (timeout) and no
heartbeat is sent, but the warning and 10-minute error escalation checks
still run first, exactly as on a non-terminal tick. -/
theorem c5_timeoutTickTerminal (w e t now : Nat) (s : MonitorState) (h : t < now) :
    (monitorTick w e (some t) false now s).terminal = some TerminalKind.timeout
    ∧ (monitorTick w e (some t) false now s).pingSent = false
    ∧ (monitorTick w e (some t) false now s).warnEmitted = warnFires w now s
    ∧ (monitorTick w e (some t) false now s).errEmitted
        = errFires e now (mtState1 w now s) := by
  have hto : timeoutElapsed (some t) now = true := by simp [timeoutElapsed, h]
  rw [monitorTick_false, if_pos hto]
  exact ⟨rfl, rfl, rfl, rfl⟩

/-- C5 witness: the amended theorem applied at a concrete elapsed timeout. -/
theorem c5_timeoutTickTerminal_witness :
    3 < 10
    ∧ ((monitorTick 1 2 (some 3) false 10 monitorState0).terminal = some TerminalKind.timeout
      ∧ (monitorTick 1 2 (some 3) false 10 monitorState0).pingSent = false
      ∧ (monitorTick 1 2 (some 3) false 10 monitorState0).warnEmitted
          = warnFires 1 10 monitorState0
      ∧ (monitorTick 1 2 (some 3) false 10 monitorState0).errEmitted
          = errFires 2 10 (mtState1 1 10 monitorState0)) :=
  ⟨by decide, c5_timeoutTickTerminal 1 2 3 10 monitorState0 (by decide)⟩

/-! ## C7 -/

/-- C7 counterexample: a request whose path is exactly the reserved
heartbeat path but which carries no websocket Upgrade header is not owned
by the coordinator — it is delegated to the prior entry point, so user
request-handling logic is invoked for a reserved-path request. -/
theorem c7_reservedPathWithoutUpgradeReachesUser :
    ({ pathname := websocketPath, upgrade := none } : HttpRequest).pathname = websocketPath
    ∧ newFetch (fun _ => FetchOutcome.userResponse 7)
        { pathname := websocketPath, upgrade := none } = FetchOutcome.userResponse 7 := by
  decide

/-- C7 amended: the patched request entry point owns exactly the requests
whose pathname starts with the reserved heartbeat path AND whose Upgrade
header is "websocket" (answering them with the upgrade response, never
invoking the prior entry point); every other request — including
reserved-path requests without the websocket upgrade header — is delegated
to the prior entry point unchanged. -/
theorem c7_fetchDispatch (oldFetch : HttpRequest → FetchOutcome) (req : HttpRequest) :
    newFetch oldFetch req =
      if jsStartsWith req.pathname websocketPath && req.upgrade == some "websocket" then
        FetchOutcome.keepAliveUpgrade
      else
        oldFetch req := by
  cases h1 : jsStartsWith req.pathname websocketPath <;>
    by_cases h2 : req.upgrade = some "websocket" <;>
      simp [newFetch, acceptKeepAliveWebSocket, h1, h2, beq_iff_eq]

/-! ## C10 -/

lemma foldl_pushKeepAlive (conns : List AgentConnection) (acc : List String) :
    conns.foldl (fun a c => if keepAliveConn c then a ++ [c.id] else a) acc
      = acc ++ (conns.filter keepAliveConn).map AgentConnection.id := by
  induction conns generalizing acc with
  | nil => simp
  | cons c cs ih =>
    cases h : keepAliveConn c <;> simp [List.filter_cons, h, ih]

/-- C10: the patched broadcast appends, to the caller-supplied exclusion
list (or a fresh one), the id of every current connection whose URL
contains the reserved heartbeat path, and then delegates to the original
broadcast with exactly that augmented list — keep-alive connections are
always excluded, and the caller message and exclusions are otherwise
passed through unchanged. -/
theorem c10_broadcastExcludesKeepAlive {β : Type} (conns : List AgentConnection)
    (oldBroadcast : String → List String → β) (msg : String)
    (without : Option (List String)) :
    agentsNewBroadcast conns oldBroadcast msg without =
      oldBroadcast msg
        ((without.getD []) ++ (conns.filter keepAliveConn).map AgentConnection.id) := by
  simp only [agentsNewBroadcast]
  rw [foldl_pushKeepAlive]

/-! ## Lemmas about the tick loop -/

lemma warnTimes_cons (r : TickRecord) (l : List TickRecord) :
    warnTimes (r :: l) = if r.warnEmitted then r.time :: warnTimes l else warnTimes l := by
  unfold warnTimes; cases h : r.warnEmitted <;> simp [List.filter_cons, h]

lemma errTimes_cons (r : TickRecord) (l : List TickRecord) :
    errTimes (r :: l) = if r.errEmitted then r.time :: errTimes l else errTimes l := by
  unfold errTimes; cases h : r.errEmitted <;> simp [List.filter_cons, h]

lemma pingTimes_cons (r : TickRecord) (l : List TickRecord) :
    pingTimes (r :: l) = if r.pingSent then r.time :: pingTimes l else pingTimes l := by
  unfold pingTimes; cases h : r.pingSent <;> simp [List.filter_cons, h]

lemma runTicksFrom_succ_flagTrue (p w e : Nat) (tmo : Option Nat) (st : Option (Nat × Bool))
    (start fuel k : Nat) (s : MonitorState)
    (hf : closureFlagAt st (start + p * k) = true) :
    runTicksFrom p w e tmo st start (fuel + 1) k s =
      [{ count := k, time := start + p * k, warnEmitted := false, errEmitted := false,
         terminal := some TerminalKind.finished, pingSent := false }] := by
  simp [runTicksFrom, hf, monitorTick_flagTrue]

lemma runTicksFrom_succ_flagFalse (p w e : Nat) (tmo : Option Nat) (st : Option (Nat × Bool))
    (start fuel k : Nat) (s : MonitorState)
    (hf : closureFlagAt st (start + p * k) = false) :
    runTicksFrom p w e tmo st start (fuel + 1) k s =
      { count := k, time := start + p * k,
        warnEmitted := warnFires w (start + p * k) s,
        errEmitted := errFires e (start + p * k) (mtState1 w (start + p * k) s),
        terminal := (if timeoutElapsed tmo (start + p * k) then some TerminalKind.timeout else none),
        pingSent := !timeoutElapsed tmo (start + p * k) } ::
      (if timeoutElapsed tmo (start + p * k) then [] else
        runTicksFrom p w e tmo st start fuel (k + 1) (mtState2 w e (start + p * k) s)) := by
  simp only [runTicksFrom, hf]
  rw [monitorTick_false]
  cases ht : timeoutElapsed tmo (start + p * k) <;> simp [ht]

lemma runTicks_warnCountP (p w e : Nat) (tmo : Option Nat) (st : Option (Nat × Bool))
    (start : Nat) :
    ∀ (fuel k : Nat) (s : MonitorState),
      ((runTicksFrom p w e tmo st start fuel k s).countP (fun r => r.warnEmitted)) ≤
        (if s.loggedWarning then 0 else 1) := by
  intro fuel
  induction fuel with
  | zero =>
    intro k s
    simp only [runTicksFrom, List.countP_nil]
    split <;> omega
  | succ n ih =>
    intro k s
    cases hf : closureFlagAt st (start + p * k) with
    | true =>
      rw [runTicksFrom_succ_flagTrue p w e tmo st start n k s hf]
      simp only [List.countP_cons, List.countP_nil]
      split <;> rename_i hh
      · simp at hh
      · split <;> omega
    | false =>
      rw [runTicksFrom_succ_flagFalse p w e tmo st start n k s hf]
      rw [List.countP_cons]
      cases hw : warnFires w (start + p * k) s with
      | true =>
        have hs : s.loggedWarning = false := ((warnFires_eq_true_iff _ _ _).1 hw).1
        have hst : (mtState2 w e (start + p * k) s).loggedWarning = true := by
          rw [mtState2_loggedWarning, mtState1_loggedWarning, hw, hs]; rfl
        have htail : ∀ l, l = (if timeoutElapsed tmo (start + p * k) then [] else
            runTicksFrom p w e tmo st start n (k + 1) (mtState2 w e (start + p * k) s)) →
            (l.countP (fun r => r.warnEmitted)) = 0 := by
          intro l hl
          cases ht : timeoutElapsed tmo (start + p * k) with
          | true => rw [if_pos ht] at hl; subst hl; rfl
          | false =>
            rw [if_neg (by rw [ht]; exact fun h => Bool.noConfusion h)] at hl
            subst hl
            have := ih (k + 1) (mtState2 w e (start + p * k) s)
            rw [hst] at this
            simpa using this
        rw [htail _ rfl]
        simp [hw, hs]
      | false =>
        have hst : (mtState2 w e (start + p * k) s).loggedWarning = s.loggedWarning := by
          rw [mtState2_loggedWarning, mtState1_loggedWarning, hw]; simp
        simp only [hw, Bool.false_eq_true, if_false, Nat.add_zero]
        cases ht : timeoutElapsed tmo (start + p * k) with
        | true => simp [ht]
        | false =>
          have := ih (k + 1) (mtState2 w e (start + p * k) s)
          rw [hst] at this
          simp only [ht, Bool.false_eq_true, if_false]
          exact this

lemma runTicks_warnAfter (p w e : Nat) (tmo : Option Nat) (st : Option (Nat × Bool))
    (start : Nat) :
    ∀ (fuel k : Nat) (s : MonitorState),
      ((runTicksFrom p w e tmo st start fuel k s).all
        (fun r => !r.warnEmitted || decide (w < r.time))) = true := by
  intro fuel
  induction fuel with
  | zero => intro k s; simp [runTicksFrom]
  | succ n ih =>
    intro k s
    cases hf : closureFlagAt st (start + p * k) with
    | true =>
      rw [runTicksFrom_succ_flagTrue p w e tmo st start n k s hf]
      simp
    | false =>
      rw [runTicksFrom_succ_flagFalse p w e tmo st start n k s hf]
      cases hw : warnFires w (start + p * k) s with
      | true =>
        have hlt : w < start + p * k := ((warnFires_eq_true_iff _ _ _).1 hw).2
        cases ht : timeoutElapsed tmo (start + p * k) <;> simp [hw, hlt, ht, ih]
      | false =>
        cases ht : timeoutElapsed tmo (start + p * k) <;> simp [hw, ht, ih]

lemma runTicks_errAfter (p w e : Nat) (tmo : Option Nat) (st : Option (Nat × Bool))
    (start : Nat) :
    ∀ (fuel k : Nat) (s : MonitorState),
      ((runTicksFrom p w e tmo st start fuel k s).all
        (fun r => !r.errEmitted || decide (e < r.time))) = true := by
  intro fuel
  induction fuel with
  | zero => intro k s; simp [runTicksFrom]
  | succ n ih =>
    intro k s
    cases hf : closureFlagAt st (start + p * k) with
    | true =>
      rw [runTicksFrom_succ_flagTrue p w e tmo st start n k s hf]
      simp
    | false =>
      rw [runTicksFrom_succ_flagFalse p w e tmo st start n k s hf]
      cases he : errFires e (start + p * k) (mtState1 w (start + p * k) s) with
      | true =>
        have hlt : e < start + p * k := ((errFires_eq_true_iff _ _ _).1 he).1
        cases ht : timeoutElapsed tmo (start + p * k) <;> simp [he, hlt, ht, ih]
      | false =>
        cases ht : timeoutElapsed tmo (start + p * k) <;> simp [he, ht, ih]

lemma runTicks_errChain (p w e : Nat) (tmo : Option Nat) (st : Option (Nat × Bool))
    (start : Nat) :
    ∀ (fuel k : Nat) (s : MonitorState),
      List.Chain' (fun (a b : Nat) => (1000 * 60 * 10 : Int) < (b : Int) - (a : Int))
          (errTimes (runTicksFrom p w e tmo st start fuel k s))
      ∧ ∀ t0 ∈ (errTimes (runTicksFrom p w e tmo st start fuel k s)).head?,
          (1000 * 60 * 10 : Int) < (t0 : Int) - (s.lastLoggedErrorAt : Int) := by
  intro fuel
  induction fuel with
  | zero => intro k s; simp [runTicksFrom, errTimes]
  | succ n ih =>
    intro k s
    cases hf : closureFlagAt st (start + p * k) with
    | true =>
      rw [runTicksFrom_succ_flagTrue p w e tmo st start n k s hf]
      simp [errTimes]
    | false =>
      rw [runTicksFrom_succ_flagFalse p w e tmo st start n k s hf]
      rw [errTimes_cons]
      cases he : errFires e (start + p * k) (mtState1 w (start + p * k) s) with
      | true =>
        have hgap : (1000 * 60 * 10 : Int) <
            ((start + p * k : Nat) : Int) - (s.lastLoggedErrorAt : Int) := by
          have := ((errFires_eq_true_iff _ _ _).1 he).2
          rwa [mtState1_lastLoggedErrorAt] at this
        have hst : (mtState2 w e (start + p * k) s).lastLoggedErrorAt = start + p * k := by
          rw [mtState2_lastLoggedErrorAt, he]; rfl
        simp only [if_true]
        cases ht : timeoutElapsed tmo (start + p * k) with
        | true =>
          simp only [ht, if_true, errTimes, List.filter_nil, List.map_nil]
          refine ⟨List.chain'_singleton _, ?_⟩
          intro t0 ht0
          simp only [List.head?_cons, Option.mem_def, Option.some.injEq] at ht0
          subst ht0
          exact hgap
        | false =>
          simp only [ht, Bool.false_eq_true, if_false]
          obtain ⟨ihChain, ihHead⟩ := ih (k + 1) (mtState2 w e (start + p * k) s)
          rw [hst] at ihHead
          refine ⟨List.chain'_cons'.2 ⟨ihHead, ihChain⟩, ?_⟩
          intro t0 ht0
          simp only [List.head?_cons, Option.mem_def, Option.some.injEq] at ht0
          subst ht0
          exact hgap
      | false =>
        have hst : (mtState2 w e (start + p * k) s).lastLoggedErrorAt = s.lastLoggedErrorAt := by
          rw [mtState2_lastLoggedErrorAt, he]; rfl
        simp only [Bool.false_eq_true, if_false]
        cases ht : timeoutElapsed tmo (start + p * k) with
        | true => simp [ht, errTimes]
        | false =>
          simp only [ht, Bool.false_eq_true, if_false]
          obtain ⟨ihChain, ihHead⟩ := ih (k + 1) (mtState2 w e (start + p * k) s)
          rw [hst] at ihHead
          exact ⟨ihChain, ihHead⟩

/-! ## C9 -/

/-- C9: for a tracked operation that never completes, over the whole
tracking lifetime (any number of ticks): the warning log is emitted at most
once; every warning is emitted strictly after the warning threshold of the code
and hence no earlier than the caller-configured logWarningAfter time (when
one was given); every error log is emitted strictly after the error
threshold and hence no earlier than the caller-configured logErrorAfter
time (when one was given); and any two consecutive error logs are more
than 10 minutes apart. -/
theorem c9_escalationBounds (start fuel : Nat) (toOpt wOpt eOpt : Option Nat) :
    (warnTimes (betterAwaitTicks start ⟨toOpt, wOpt, eOpt⟩ none fuel)).length ≤ 1
    ∧ ((betterAwaitTicks start ⟨toOpt, wOpt, eOpt⟩ none fuel).all
        (fun r => !r.warnEmitted ||
          decide (logWarningAtOf start ⟨toOpt, wOpt, eOpt⟩ < r.time))) = true
    ∧ ((betterAwaitTicks start ⟨toOpt, wOpt, eOpt⟩ none fuel).all
        (fun r => !r.warnEmitted ||
          (match wOpt with | none => true | some v => decide (v < r.time)))) = true
    ∧ ((betterAwaitTicks start ⟨toOpt, wOpt, eOpt⟩ none fuel).all
        (fun r => !r.errEmitted ||
          decide (logErrorAtOf start ⟨toOpt, wOpt, eOpt⟩ < r.time))) = true
    ∧ ((betterAwaitTicks start ⟨toOpt, wOpt, eOpt⟩ none fuel).all
        (fun r => !r.errEmitted ||
          (match eOpt with | none => true | some v => decide (v < r.time)))) = true
    ∧ List.Chain' (fun (a b : Nat) => (1000 * 60 * 10 : Int) < (b : Int) - (a : Int))
        (errTimes (betterAwaitTicks start ⟨toOpt, wOpt, eOpt⟩ none fuel)) := by
  refine ⟨?_, ?_, ?_, ?_, ?_, ?_⟩
  · have h := runTicks_warnCountP keepAliveTickPeriodMs
      (logWarningAtOf start ⟨toOpt, wOpt, eOpt⟩) (logErrorAtOf start ⟨toOpt, wOpt, eOpt⟩)
      toOpt none start fuel 1 monitorState0
    simp only [monitorState0, Bool.false_eq_true, if_false] at h
    unfold betterAwaitTicks warnTimes
    rw [List.length_map, ← List.countP_eq_length_filter]
    exact h
  · exact runTicks_warnAfter keepAliveTickPeriodMs _ _ toOpt none start fuel 1 monitorState0
  · have h := runTicks_warnAfter keepAliveTickPeriodMs
      (logWarningAtOf start ⟨toOpt, wOpt, eOpt⟩) (logErrorAtOf start ⟨toOpt, wOpt, eOpt⟩)
      toOpt none start fuel 1 monitorState0
    rw [List.all_eq_true] at h ⊢
    intro r hr
    have hrr := h r hr
    cases hw : r.warnEmitted with
    | false => simp [hw]
    | true =>
      rw [hw] at hrr
      simp only [Bool.not_true, Bool.false_or, decide_eq_true_eq] at hrr
      cases wOpt with
      | none => simp [hw]
      | some v =>
        simp only [logWarningAtOf, Option.getD_some] at hrr
        simp only [hw, Bool.not_true, Bool.false_or, decide_eq_true_eq]
        omega
  · exact runTicks_errAfter keepAliveTickPeriodMs _ _ toOpt none start fuel 1 monitorState0
  · have h := runTicks_errAfter keepAliveTickPeriodMs
      (logWarningAtOf start ⟨toOpt, wOpt, eOpt⟩) (logErrorAtOf start ⟨toOpt, wOpt, eOpt⟩)
      toOpt none start fuel 1 monitorState0
    rw [List.all_eq_true] at h ⊢
    intro r hr
    have hrr := h r hr
    cases he : r.errEmitted with
    | false => simp [he]
    | true =>
      rw [he] at hrr
      simp only [Bool.not_true, Bool.false_or, decide_eq_true_eq] at hrr
      cases eOpt with
      | none => simp [he]
      | some v =>
        simp only [logErrorAtOf, Option.getD_some] at hrr
        simp only [he, Bool.not_true, Bool.false_or, decide_eq_true_eq]
        omega
  · exact (runTicks_errChain keepAliveTickPeriodMs _ _ toOpt none start fuel 1 monitorState0).1

/-! ## C3 -/

lemma runTicks_fulfilledBehavior (p w e : Nat) (tmo : Option Nat) (t start : Nat) :
    ∀ (fuel k : Nat) (s : MonitorState),
      ((runTicksFrom p w e tmo (some (t, true)) start fuel k s).all
        (fun r => (!r.pingSent || decide (r.time < t)) &&
          ((r.terminal == some TerminalKind.finished) == decide (t ≤ r.time)))) = true := by
  intro fuel
  induction fuel with
  | zero => intro k s; simp [runTicksFrom]
  | succ n ih =>
    intro k s
    have hflag : closureFlagAt (some (t, true)) (start + p * k) = decide (t ≤ start + p * k) := rfl
    cases hd : decide (t ≤ start + p * k) with
    | true =>
      rw [runTicksFrom_succ_flagTrue p w e tmo (some (t, true)) start n k s (by rw [hflag, hd])]
      simp only [List.all_cons, List.all_nil, Bool.and_true]
      simp [hd]
    | false =>
      rw [runTicksFrom_succ_flagFalse p w e tmo (some (t, true)) start n k s (by rw [hflag, hd])]
      have hlt : start + p * k < t := by
        have := of_decide_eq_false hd
        omega
      cases ht : timeoutElapsed tmo (start + p * k) <;>
        simp [ht, hd, hlt, ih]

/-- C3 counterexample: the heartbeat channel is not closed identically for
resolution and rejection, nor on timeout termination.  With a promise that
rejects at 5 s, the finished flag is set and the monitor resolves on the
first tick, but no channelClose event ever occurs; with a never-settling
promise and a 15 s timeout, the loop terminates with the timeout error and
again no channelClose event occurs. -/
theorem c3_noCloseOnRejectionOrTimeout :
    betterAwaitTimeline 0 ⟨none, none, none⟩ (some (5000, false)) 3
        = [(0, AwaitEvent.channelOpen), (10000, AwaitEvent.resolveMonitor)]
    ∧ betterAwaitTimeline 0 ⟨some 15000, none, none⟩ none 3
        = [(0, AwaitEvent.channelOpen), (10000, AwaitEvent.ping 1),
           (20000, AwaitEvent.timeoutLog), (20000, AwaitEvent.resolveMonitor)] := by
  constructor <;> decide

/-- C3 amended: the channel-close callback runs exactly when the wrapped
computation fulfills, at its fulfillment time (hence within one tick period
of completion when it completes before any timeout); on rejection and on
timeout termination no close is issued.  For a computation fulfilling at
time t, no heartbeat is ever sent at or after t, and a tick resolves the
monitor (terminal finished) exactly when its time is at least t. -/
theorem c3_closeOnlyOnFulfillment (start t fuel : Nat) (toOpt wOpt eOpt : Option Nat) :
    channelCloseTime (some (t, true)) = some t
    ∧ channelCloseTime (some (t, false)) = none
    ∧ channelCloseTime none = none
    ∧ ((betterAwaitTicks start ⟨toOpt, wOpt, eOpt⟩ (some (t, true)) fuel).all
        (fun r => (!r.pingSent || decide (r.time < t)) &&
          ((r.terminal == some TerminalKind.finished) == decide (t ≤ r.time)))) = true := by
  exact ⟨rfl, rfl, rfl,
    runTicks_fulfilledBehavior keepAliveTickPeriodMs _ _ toOpt t start fuel 1 monitorState0⟩

/-! ## C8 -/

lemma runTicks_pingTimes_noTimeout (p w e start : Nat) :
    ∀ (fuel k : Nat) (s : MonitorState),
      pingTimes (runTicksFrom p w e none none start fuel k s)
        = (List.range fuel).map (fun i => start + p * (k + i)) := by
  intro fuel
  induction fuel with
  | zero => intro k s; simp [runTicksFrom, pingTimes]
  | succ n ih =>
    intro k s
    rw [runTicksFrom_succ_flagFalse p w e none none start n k s rfl]
    have ht : timeoutElapsed none (start + p * k) = false := rfl
    rw [ht]
    simp only [Bool.false_eq_true, if_false, Bool.not_false]
    rw [pingTimes_cons]
    simp only [if_true]
    rw [ih (k + 1) (mtState2 w e (start + p * k) s)]
    rw [List.range_succ_eq_map]
    simp only [List.map_cons, List.map_map, Nat.add_zero]
    congr 1
    apply List.map_congr_left
    intro i _
    simp only [Function.comp_apply]
    have h3 : k + 1 + i = k + (i + 1) := by omega
    rw [h3]

/-- C8 counterexample: the repository exports a second keep-alive entry
point (the fetch-based betterWaitUntil variant) whose monitor interval is
60 seconds, not 10: on a never-resolving operation its first two ticks are
at 60 s and 120 s, so a heartbeat is not sent at least every 10 seconds for
every exported keep-alive entry point. -/
theorem c8_fetchVariantTicksEverySixtySeconds :
    (fetchBetterWaitUntilTicks 0 ⟨none, none, none⟩ none 2).map (fun r => r.time)
        = [60000, 120000]
    ∧ fetchKeepAlivePeriodMs = 60000
    ∧ keepAliveTickPeriodMs = 10000 := by
  refine ⟨?_, rfl, rfl⟩
  decide

/-- C8 amended: the websocket-based monitor (betterAwait, behind the
betterWaitUntil of the websocket module and the KeepAlive classes) ticks every
10 seconds, and while the operation is unfinished and no timeout is
configured it sends exactly one heartbeat per tick: the ping times are
start + 10 s, start + 20 s, ..., i.e. heartbeats at least every 10 seconds;
the fetch-based exported variant instead ticks every 60 seconds. -/
theorem c8_wsMonitorPingsEveryTenSeconds (start fuel : Nat) (wOpt eOpt : Option Nat) :
    pingTimes (betterAwaitTicks start ⟨none, wOpt, eOpt⟩ none fuel)
      = (List.range fuel).map (fun i => start + keepAliveTickPeriodMs * (1 + i)) := by
  unfold betterAwaitTicks
  exact runTicks_pingTimes_noTimeout keepAliveTickPeriodMs _ _ start fuel 1 monitorState0

/-! ## C6 -/

lemma tickRecordEvents_countP_open (r : TickRecord) :
    (tickRecordEvents r).countP eventIsOpen = 0 := by
  unfold tickRecordEvents
  cases ht : r.terminal with
  | none =>
    cases hw : r.warnEmitted <;> cases he : r.errEmitted <;>
      simp [eventIsOpen, List.countP_cons, List.countP_append]
  | some ter =>
    cases ter <;>
      cases hw : r.warnEmitted <;> cases he : r.errEmitted <;>
        simp [eventIsOpen, List.countP_cons, List.countP_append]

lemma flatMap_countP_open (l : List TickRecord) :
    ((l.flatMap tickRecordEvents).countP eventIsOpen) = 0 := by
  induction l with
  | nil => rfl
  | cons r rs ih =>
    rw [List.flatMap_cons, List.countP_append, tickRecordEvents_countP_open, ih]

lemma insertByTime_perm (ev : Nat × AwaitEvent) (l : List (Nat × AwaitEvent)) :
    (insertByTime ev l).Perm (ev :: l) := by
  induction l with
  | nil => exact List.Perm.refl _
  | cons x xs ih =>
    unfold insertByTime
    split
    · exact List.Perm.refl _
    · exact (List.Perm.cons x ih).trans (List.Perm.swap ev x xs)

lemma tickRecordEvents_timesAll (r : TickRecord) :
    (tickRecordEvents r).all (fun ev => ev.1 == r.time) = true := by
  unfold tickRecordEvents
  cases ht : r.terminal with
  | none =>
    cases hw : r.warnEmitted <;> cases he : r.errEmitted <;> simp
  | some ter =>
    cases ter <;>
      cases hw : r.warnEmitted <;> cases he : r.errEmitted <;> simp

lemma runTicks_timeLowerBound (p w e : Nat) (tmo : Option Nat) (st : Option (Nat × Bool))
    (start : Nat) :
    ∀ (fuel k : Nat) (s : MonitorState),
      ((runTicksFrom p w e tmo st start fuel k s).all
        (fun r => decide (start + p * k ≤ r.time))) = true := by
  intro fuel
  induction fuel with
  | zero => intro k s; simp [runTicksFrom]
  | succ n ih =>
    intro k s
    have hmono : start + p * k ≤ start + p * (k + 1) :=
      Nat.add_le_add_left (Nat.mul_le_mul_left p (by omega)) start
    cases hf : closureFlagAt st (start + p * k) with
    | true =>
      rw [runTicksFrom_succ_flagTrue p w e tmo st start n k s hf]
      simp
    | false =>
      rw [runTicksFrom_succ_flagFalse p w e tmo st start n k s hf]
      rw [List.all_cons]
      cases ht : timeoutElapsed tmo (start + p * k) with
      | true => simp [ht]
      | false =>
        simp only [ht, Bool.false_eq_true, if_false]
        have h := ih (k + 1) (mtState2 w e (start + p * k) s)
        rw [List.all_eq_true] at h
        have hall : ((runTicksFrom p w e tmo st start n (k + 1)
            (mtState2 w e (start + p * k) s)).all
            (fun r => decide (start + p * k ≤ r.time))) = true := by
          rw [List.all_eq_true]
          intro r hr
          have := h r hr
          simp only [decide_eq_true_eq] at this ⊢
          omega
        simp [hall]

/-- C6 counterexample: with no options and an operation that fulfills at
5 s (within one tick period), the channel-open event occurs at time 0 —
the moment betterAwait is invoked — while the first and only monitor tick
is at 10 s and no heartbeat is ever sent: a self-loop connection is opened
before the first timer tick and without any heartbeat send, refuting the
lazy open-on-first-use claim. -/
theorem c6_channelOpenedBeforeFirstTick :
    betterAwaitTimeline 0 ⟨none, none, none⟩ (some (5000, true)) 2
        = [(0, AwaitEvent.channelOpen), (5000, AwaitEvent.channelClose),
           (10000, AwaitEvent.resolveMonitor)]
    ∧ (betterAwaitTicks 0 ⟨none, none, none⟩ (some (5000, true)) 2).map (fun r => r.time)
        = [10000]
    ∧ pingTimes (betterAwaitTicks 0 ⟨none, none, none⟩ (some (5000, true)) 2) = [] := by
  refine ⟨?_, ?_, ?_⟩ <;> decide

/-- C6 amended: the heartbeat channel is opened eagerly, exactly once per
tracked operation, at registration time (the head of the timeline is the
channel-open event at the invocation time, before the first tick), and
every heartbeat ping occurs no earlier than one full tick period after the
open; an operation resolving within one tick period with no options set
therefore sees one opened channel and zero pings. -/
theorem c6_channelOpenedEagerlyOnce (start fuel : Nat) (toOpt wOpt eOpt : Option Nat)
    (settle : Option (Nat × Bool)) :
    (betterAwaitTimeline start ⟨toOpt, wOpt, eOpt⟩ settle fuel).head?
        = some (start, AwaitEvent.channelOpen)
    ∧ (betterAwaitTimeline start ⟨toOpt, wOpt, eOpt⟩ settle fuel).countP eventIsOpen = 1
    ∧ ((betterAwaitTimeline start ⟨toOpt, wOpt, eOpt⟩ settle fuel).filter eventIsPing).all
        (fun ev => decide (start + keepAliveTickPeriodMs ≤ ev.1)) = true := by
  refine ⟨rfl, ?_, ?_⟩
  · simp only [betterAwaitTimeline]
    rw [List.countP_cons]
    have hopen : eventIsOpen (start, AwaitEvent.channelOpen) = true := rfl
    cases hc : channelCloseTime settle with
    | none =>
      rw [flatMap_countP_open]
      simp [hopen]
    | some t =>
      rw [List.Perm.countP_eq eventIsOpen (insertByTime_perm (t, AwaitEvent.channelClose) _)]
      rw [List.countP_cons, flatMap_countP_open]
      have hclose : eventIsOpen (t, AwaitEvent.channelClose) = false := rfl
      simp [hopen, hclose]
  · rw [List.all_eq_true]
    intro ev hev
    rw [List.mem_filter] at hev
    obtain ⟨hmem, hping⟩ := hev
    simp only [betterAwaitTimeline] at hmem
    rcases List.mem_cons.1 hmem with h | h
    · rw [h] at hping
      simp [eventIsPing] at hping
    · have hflat : ev ∈ (betterAwaitTicks start ⟨toOpt, wOpt, eOpt⟩ settle fuel).flatMap
          tickRecordEvents := by
        cases hc : channelCloseTime settle with
        | none => rw [hc] at h; exact h
        | some t =>
          rw [hc] at h
          rcases List.mem_cons.1
              ((insertByTime_perm (t, AwaitEvent.channelClose) _).mem_iff.1 h) with h2 | h2
          · rw [h2] at hping
            simp [eventIsPing] at hping
          · exact h2
      rw [List.mem_flatMap] at hflat
      obtain ⟨r, hr, hevr⟩ := hflat
      have htime : ev.1 = r.time := by
        have := List.all_eq_true.1 (tickRecordEvents_timesAll r) ev hevr
        simpa [beq_iff_eq] using this
      have hbound := List.all_eq_true.1
        (runTicks_timeLowerBound keepAliveTickPeriodMs
          (logWarningAtOf start ⟨toOpt, wOpt, eOpt⟩) (logErrorAtOf start ⟨toOpt, wOpt, eOpt⟩)
          toOpt settle start fuel 1 monitorState0) r hr
      simp only [decide_eq_true_eq] at hbound ⊢
      rw [htime]
      omega
